import Mathlib

/-!
Shallow embedding of the `cdk-constructs` repository:

* the `ExternalSecret` facade from
  `ca_cdk_constructs/eks/external_secrets/external_secret.py`, and
* the `ProtectedCloudfrontStack` assembler from
  `cdk_constructs/protected_cloudfront.py`.

Python strings are `String`; Python dicts are association lists
`List (String × String)` (insertion-ordered with unique keys, as Python
dicts are).  The declarative resource objects the code instantiates
(CRD spec records, CloudFront distribution, Route53 record, ...) become
Lean structures holding exactly the fields the Python constructor calls
set.  CDK-generated values (distribution id, distribution domain name)
are parameters of the construction functions.
-/

namespace CdkConstructs

/-- Model of Python `str.split(".")`: a left-to-right scan over the
characters; `acc` holds the (reversed) characters of the segment being
built.  The result is always non-empty. -/
def splitDotAux : List Char → List Char → List String
  | [], acc => [String.mk acc.reverse]
  | c :: rest, acc =>
    if c = '.' then String.mk acc.reverse :: splitDotAux rest []
    else splitDotAux rest (c :: acc)

/-- Python `s.split(".")`.  On a dot-free string it returns `[s]` and on
the empty string it returns `[""]`, exactly as Python does. -/
def pySplitDot (s : String) : List String :=
  splitDotAux s.data []

/-- Python `v or fallback` for strings: the empty string is the only
falsy `str` value. -/
def pyOr (v fallback : String) : String :=
  if v = "" then fallback else v

/-- Embedding of the imported CRD field type
`ExternalSecretV1Beta1SpecDataRemoteRef`. -/
structure ExternalSecretV1Beta1SpecDataRemoteRef where
  key : String
  property : String
deriving DecidableEq

/-- Embedding of `ExternalSecretV1Beta1SpecData`. -/
structure ExternalSecretV1Beta1SpecData where
  remote_ref : ExternalSecretV1Beta1SpecDataRemoteRef
  secret_key : String
deriving DecidableEq

/-- Embedding of `ExternalSecretV1Beta1SpecSecretStoreRef`. -/
structure ExternalSecretV1Beta1SpecSecretStoreRef where
  name : String
  kind : String
deriving DecidableEq

/-- Embedding of `ExternalSecretV1Beta1SpecTarget`. -/
structure ExternalSecretV1Beta1SpecTarget where
  name : String
deriving DecidableEq

/-- Embedding of `ExternalSecretV1Beta1Spec`: the `spec` block of the
emitted resource. -/
structure ExternalSecretV1Beta1Spec where
  secret_store_ref : ExternalSecretV1Beta1SpecSecretStoreRef
  refresh_interval : String
  target : ExternalSecretV1Beta1SpecTarget
  data : List ExternalSecretV1Beta1SpecData
deriving DecidableEq

/-- Embedding of the attrs class `ExternalSecretSource`
(`external_secret.py`, lines 17-37).  `refresh_interval` has the same
default `"1h"` as in the source. -/
structure ExternalSecretSource where
  source_secret : String
  k8s_secret_name : String
  secret_mappings : List (String × String)
  refresh_interval : String := "1h"
deriving DecidableEq

/-- Embedding of the `ExternalSecret` construct after `__init__` ran: the
stored `_k8s_secret_name` attribute, the pass-through metadata, and the
spec of the single `ExternalSecretV1Beta1` child resource. -/
structure ExternalSecret where
  _k8s_secret_name : String
  metadata : List (String × String)
  resource : ExternalSecretV1Beta1Spec
deriving DecidableEq

/-- Embedding of `ExternalSecret.__init__` (`external_secret.py`, lines
70-106).  For each mapping `(k, v)` the data entry carries
`remoteRef = {key: source_secret, property: k}` and
`secretKey = v or str(k).split(".")[-1]`; `[-1]` on the never-empty
split result is modelled with `List.getLastD` (see
`splitDotAux_ne_nil`, so the default is never used). -/
def mkExternalSecret (store_name : String) (secret_source : ExternalSecretSource)
    (metadata : List (String × String) := []) : ExternalSecret :=
  { _k8s_secret_name := secret_source.k8s_secret_name,
    metadata := metadata,
    resource :=
      { secret_store_ref := { name := store_name, kind := "SecretStore" },
        refresh_interval := secret_source.refresh_interval,
        target := { name := secret_source.k8s_secret_name },
        data := secret_source.secret_mappings.map (fun kv =>
          { remote_ref := { key := secret_source.source_secret, property := kv.1 },
            secret_key := pyOr kv.2 ((pySplitDot kv.1).getLastD kv.1) }) } }

/-- Embedding of the read-only `k8s_secret_name` property
(`external_secret.py`, lines 108-110). -/
def ExternalSecret.k8s_secret_name (e : ExternalSecret) : String :=
  e._k8s_secret_name

/-- Spec-side description of the fallback destination key: the substring
of `s` strictly after its last `'.'` (the whole of `s` when it has no
dot). -/
def afterLastDot (s : String) : String :=
  String.mk ((s.data.reverse.takeWhile (fun c => c != '.')).reverse)

/-- Spec-side description of the first dot-separated label of a domain
string: the longest dot-free prefix. -/
def firstLabel (s : String) : String :=
  String.mk (s.data.takeWhile (fun c => c != '.'))

theorem splitDotAux_ne_nil (l acc : List Char) : splitDotAux l acc ≠ [] := by
  induction l generalizing acc with
  | nil => simp [splitDotAux]
  | cons c rest ih =>
    by_cases hc : c = '.' <;> simp [splitDotAux, hc, ih]

theorem pySplitDot_ne_nil (s : String) : pySplitDot s ≠ [] :=
  splitDotAux_ne_nil s.data []

theorem takeWhile_append_of_stop {α : Type _} {p : α → Bool} {l l' : List α} {x : α}
    (hx : x ∈ l) (hpx : p x = false) :
    (l ++ l').takeWhile p = l.takeWhile p := by
  induction l with
  | nil => cases hx
  | cons a t ih =>
    cases hpa : p a with
    | false => simp [List.takeWhile_cons, hpa]
    | true =>
      have hxt : x ∈ t := by
        rcases List.mem_cons.mp hx with h | h
        · subst h
          rw [hpx] at hpa
          exact absurd hpa Bool.false_ne_true
        · exact h
      simp [List.takeWhile_cons, hpa, ih hxt]

theorem takeWhile_append_of_all {α : Type _} {p : α → Bool} {l l' : List α}
    (h : ∀ x ∈ l, p x = true) :
    (l ++ l').takeWhile p = l ++ l'.takeWhile p := by
  induction l with
  | nil => simp
  | cons a t ih =>
    have hpa : p a = true := h a (List.mem_cons_self a t)
    simp [List.takeWhile_cons, hpa,
      ih (fun x hx => h x (List.mem_cons_of_mem a hx))]

theorem takeWhile_eq_self_of_all {α : Type _} {p : α → Bool} {l : List α}
    (h : ∀ x ∈ l, p x = true) : l.takeWhile p = l := by
  induction l with
  | nil => simp
  | cons a t ih =>
    have hpa : p a = true := h a (List.mem_cons_self a t)
    simp [List.takeWhile_cons, hpa,
      ih (fun x hx => h x (List.mem_cons_of_mem a hx))]

/-- The last element of the dot-split of a string is the substring after
the last dot when the string has a dot, and otherwise the accumulated
segment. -/
theorem splitDotAux_getLastD (l acc : List Char) (d : String) :
    (splitDotAux l acc).getLastD d =
      if '.' ∈ l then String.mk ((l.reverse.takeWhile (fun c => c != '.')).reverse)
      else String.mk (acc.reverse ++ l) := by
  induction l generalizing acc d with
  | nil => simp [splitDotAux]
  | cons c rest ih =>
    by_cases hc : c = '.'
    · subst hc
      rw [splitDotAux, if_pos rfl, List.getLastD_cons, ih,
        if_pos (List.mem_cons_self _ _), List.reverse_cons]
      by_cases hr : ('.' : Char) ∈ rest
      · rw [if_pos hr,
          takeWhile_append_of_stop (List.mem_reverse.mpr hr) (by decide)]
      · rw [if_neg hr, takeWhile_append_of_all, List.reverse_append]
        · simp
        · intro x hx
          have hxr : x ∈ rest := List.mem_reverse.mp hx
          have hxne : x ≠ '.' := fun he => hr (he ▸ hxr)
          simpa using hxne
    · rw [splitDotAux, if_neg hc, ih]
      have hne : ('.' : Char) ≠ c := fun h => hc h.symm
      by_cases hr : ('.' : Char) ∈ rest
      · rw [if_pos hr, if_pos (List.mem_cons_of_mem c hr), List.reverse_cons,
          takeWhile_append_of_stop (List.mem_reverse.mpr hr) (by decide)]
      · have hcr : ('.' : Char) ∉ c :: rest := by
          simp [List.mem_cons, hne, hr]
        rw [if_neg hr, if_neg hcr, List.reverse_cons]
        simp

/-- Python `s.split(".")[-1]` equals the substring after the last dot. -/
theorem pySplitDot_getLastD (s : String) (d : String) :
    (pySplitDot s).getLastD d = afterLastDot s := by
  unfold pySplitDot afterLastDot
  rw [splitDotAux_getLastD]
  by_cases h : ('.' : Char) ∈ s.data
  · rw [if_pos h]
  · rw [if_neg h, takeWhile_eq_self_of_all, List.reverse_reverse]
    · simp
    · intro x hx
      have hxs : x ∈ s.data := List.mem_reverse.mp hx
      have hxne : x ≠ '.' := fun he => h (he ▸ hxs)
      simpa using hxne

/-- A dot-free string is its own substring-after-the-last-dot. -/
theorem afterLastDot_eq_self (s : String) (h : ('.' : Char) ∉ s.data) :
    afterLastDot s = s := by
  unfold afterLastDot
  rw [takeWhile_eq_self_of_all, List.reverse_reverse]
  intro x hx
  have hxs : x ∈ s.data := List.mem_reverse.mp hx
  have hxne : x ≠ '.' := fun he => h (he ▸ hxs)
  simpa using hxne

/-- The head of the dot-split of a string is the accumulated segment
followed by the longest dot-free prefix. -/
theorem splitDotAux_headD (l acc : List Char) (d : String) :
    (splitDotAux l acc).headD d =
      String.mk (acc.reverse ++ l.takeWhile (fun c => c != '.')) := by
  induction l generalizing acc d with
  | nil => simp [splitDotAux]
  | cons c rest ih =>
    by_cases hc : c = '.'
    · subst hc
      simp [splitDotAux, List.takeWhile_cons]
    · have hq : (c != '.') = true := by simpa using hc
      rw [splitDotAux, if_neg hc, ih]
      simp [List.takeWhile_cons, hq, List.reverse_cons, List.append_assoc]

/-- Python `domain.split(".")[0]` equals the first dot-separated label. -/
theorem pySplitDot_headD (s : String) (d : String) :
    (pySplitDot s).headD d = firstLabel s := by
  unfold pySplitDot firstLabel
  rw [splitDotAux_headD]
  simp

/-- Sentinel for `PhysicalName.GENERATE_IF_NEEDED`, the CDK marker asking
the framework to generate a bucket name on demand. -/
def PhysicalName_GENERATE_IF_NEEDED : String := "PhysicalName.GENERATE_IF_NEEDED"

/-- Embedding of an `s3.LifecycleRule` as configured by the stack. -/
structure LifecycleRule where
  enabled : Bool
  expiration_days : Nat
deriving DecidableEq

/-- Embedding of the `s3.Bucket` fields the stack sets. -/
structure Bucket where
  bucket_name : String
  removal_policy_destroy : Bool
  lifecycle_rules : List LifecycleRule
deriving DecidableEq

/-- Embedding of the `WafStack` child as instantiated by
`protected_cloudfront.py` (lines 38-52): its flags, parameter map and
pinned region. -/
structure WafStack where
  log_requests : Bool
  params : List (String × String)
  region : String
deriving DecidableEq

/-- Embedding of `acm.DnsValidatedCertificate` as configured (lines
63-67). -/
structure DnsValidatedCertificate where
  domain_name : String
  region : String
  hosted_zone : String
deriving DecidableEq

/-- Embedding of `origins.HttpOrigin` (lines 68-69). -/
structure HttpOrigin where
  domain_name : String
  custom_headers : List (String × String)
deriving DecidableEq

/-- The two cloudfront managed cache policies the stack uses. -/
inductive CachePolicy where
  | CACHING_DISABLED
  | CACHING_OPTIMIZED
deriving DecidableEq

/-- The allowed-method sets the stack uses. -/
inductive AllowedMethods where
  | ALLOW_ALL
  | ALLOW_GET_HEAD
deriving DecidableEq

/-- The cached-method set the stack uses. -/
inductive CachedMethods where
  | CACHE_GET_HEAD
deriving DecidableEq

/-- The viewer protocol policy the stack uses. -/
inductive ViewerProtocolPolicy where
  | REDIRECT_TO_HTTPS
deriving DecidableEq

/-- Embedding of the custom `cloudfront.OriginRequestPolicy` built for
static assets (lines 71-77): only the `Host` header is forwarded, no
cookies and no query strings. -/
structure OriginRequestPolicySpec where
  comment : String
  header_allow_list : List String
  forward_cookies : Bool
  forward_query_strings : Bool
deriving DecidableEq

/-- An origin request policy reference: either the managed `ALL_VIEWER`
policy or a custom policy resource. -/
inductive OriginRequestPolicy where
  | ALL_VIEWER
  | custom (spec : OriginRequestPolicySpec)
deriving DecidableEq

/-- Embedding of `cloudfront.BehaviorOptions` with the fields the stack
sets. -/
structure BehaviorOptions where
  origin : HttpOrigin
  compress : Bool
  cache_policy : CachePolicy
  origin_request_policy : OriginRequestPolicy
  allowed_methods : AllowedMethods
  cached_methods : CachedMethods
  viewer_protocol_policy : ViewerProtocolPolicy
deriving DecidableEq

/-- Embedding of `cloudfront.GeoRestriction`. -/
structure GeoRestriction where
  restriction_type : String
  locations : List String
deriving DecidableEq

/-- Embedding of `cloudfront.GeoRestriction.allowlist(...)`. -/
def GeoRestriction.allowlist (locations : List String) : GeoRestriction :=
  { restriction_type := "allowlist", locations := locations }

/-- Embedding of the `cloudfront.Distribution` resource with the fields
the stack sets; `distribution_id` and `distribution_domain_name` are the
framework-generated attributes, passed in as parameters. -/
structure Distribution where
  domain_names : List String
  enable_logging : Bool
  certificate : DnsValidatedCertificate
  comment : String
  geo_restriction : GeoRestriction
  default_behavior : BehaviorOptions
  additional_behaviors : List (String × BehaviorOptions)
  distribution_id : String
  distribution_domain_name : String
deriving DecidableEq

/-- Embedding of `cdn.add_behavior(path_pattern, ...)` (lines 98-105):
appends one extra behavior keyed by its path pattern. -/
def Distribution.add_behavior (dist : Distribution) (path_pattern : String)
    (behavior : BehaviorOptions) : Distribution :=
  { dist with additional_behaviors :=
      dist.additional_behaviors ++ [(path_pattern, behavior)] }

/-- Embedding of the `r53.ARecord` (lines 117-121): its zone, record name
and the distribution it aliases. -/
structure ARecord where
  zone : String
  record_name : String
  target : Distribution
deriving DecidableEq

/-- The class constant `ProtectedCloudfrontStack.SECRET_HEADER_NAME`. -/
def SECRET_HEADER_NAME : String := "X-Secret-CF-ALB-Header"

/-- Embedding of a fully constructed `ProtectedCloudfrontStack`: the
attributes `__init__` sets plus the declarative children it creates. -/
structure ProtectedCloudfrontStack where
  env_name : String
  stack_name : String
  access_logs_bucket : Bucket
  waf : WafStack
  secret_header : String
  certificate : DnsValidatedCertificate
  http_origin : HttpOrigin
  cdn : Distribution
  outputs : List (String × String)
  dns_record : ARecord
deriving DecidableEq

/-- Embedding of `ProtectedCloudfrontStack.secretHeaderValue` (lines
127-128). -/
def ProtectedCloudfrontStack.secretHeaderValue
    (s : ProtectedCloudfrontStack) : String :=
  s.secret_header

/-- Embedding of `ProtectedCloudfrontStack.secretHeader` (lines
130-131). -/
def ProtectedCloudfrontStack.secretHeader
    (s : ProtectedCloudfrontStack) : List (String × String) :=
  [(SECRET_HEADER_NAME, s.secret_header)]

/-- Body of `ProtectedCloudfrontStack.__init__` (lines 20-121) once
`env_name` has been read from the context, in source order.  The
construct calls `self.secretHeader()` while building the origin; after
`self.secret_header` is set that method returns
`{SECRET_HEADER_NAME: self.secret_header}`, inlined here. -/
def buildProtectedCloudfrontStack (hosted_zone domain origin_domain : String)
    (env_name stack_name : String)
    (distribution_id distribution_domain_name : String) :
    ProtectedCloudfrontStack :=
  let access_logs_bucket : Bucket :=
    { bucket_name := PhysicalName_GENERATE_IF_NEEDED,
      removal_policy_destroy := true,
      lifecycle_rules := [{ enabled := true, expiration_days := 31 * 6 }] }
  let waf : WafStack :=
    { log_requests := false,
      params :=
        [("ActivateAWSManagedRulesParam", "True"),
         ("ActivateSqlInjectionProtectionParam", "True"),
         ("ActivateCrossSiteScriptingProtectionParam", "True"),
         ("ActivateHttpFloodProtectionParam", "True"),
         ("ActivateScannersProbesProtectionParam", "True"),
         ("ActivateReputationListsProtectionParam", "True"),
         ("ActivateBadBotProtectionParam", "False"),
         ("AppAccessLogBucket", access_logs_bucket.bucket_name)],
      region := "us-east-1" }
  let secret_header := env_name ++ "-" ++ stack_name
  let certificate : DnsValidatedCertificate :=
    { domain_name := domain, region := "us-east-1", hosted_zone := hosted_zone }
  let http_origin : HttpOrigin :=
    { domain_name := origin_domain,
      custom_headers := [(SECRET_HEADER_NAME, secret_header)] }
  let assets_origin_request_policy : OriginRequestPolicySpec :=
    { comment := "Forward the Host header for assets",
      header_allow_list := ["Host"],
      forward_cookies := false,
      forward_query_strings := false }
  let cdn : Distribution :=
    { domain_names := [domain],
      enable_logging := true,
      certificate := certificate,
      comment := "CDN for " ++ stack_name,
      geo_restriction := GeoRestriction.allowlist ["GB", "JE", "GG"],
      default_behavior :=
        { origin := http_origin,
          compress := true,
          cache_policy := CachePolicy.CACHING_DISABLED,
          origin_request_policy := OriginRequestPolicy.ALL_VIEWER,
          allowed_methods := AllowedMethods.ALLOW_ALL,
          cached_methods := CachedMethods.CACHE_GET_HEAD,
          viewer_protocol_policy := ViewerProtocolPolicy.REDIRECT_TO_HTTPS },
      additional_behaviors := [],
      distribution_id := distribution_id,
      distribution_domain_name := distribution_domain_name }
  let cdn := cdn.add_behavior "/assets/*"
    { origin := http_origin,
      compress := true,
      allowed_methods := AllowedMethods.ALLOW_GET_HEAD,
      cached_methods := CachedMethods.CACHE_GET_HEAD,
      cache_policy := CachePolicy.CACHING_OPTIMIZED,
      origin_request_policy := OriginRequestPolicy.custom assets_origin_request_policy,
      viewer_protocol_policy := ViewerProtocolPolicy.REDIRECT_TO_HTTPS }
  let outputs :=
    [("CloudfrontDistributionId", cdn.distribution_id),
     ("CloudfrontDistributionDomain", cdn.distribution_domain_name),
     ("SecretHeaderArn", secret_header)]
  let domain_prefix := (pySplitDot domain).headD ""
  let dns_record : ARecord :=
    { zone := hosted_zone, record_name := domain_prefix, target := cdn }
  { env_name := env_name,
    stack_name := stack_name,
    access_logs_bucket := access_logs_bucket,
    waf := waf,
    secret_header := secret_header,
    certificate := certificate,
    http_origin := http_origin,
    cdn := cdn,
    outputs := outputs,
    dns_record := dns_record }

/-- Embedding of `ProtectedCloudfrontStack.__init__` including the read
of `env_context["env_name"]` (line 24): a missing key raises `KeyError`
in Python, modelled as `none`. -/
def mkProtectedCloudfrontStack (hosted_zone domain origin_domain : String)
    (env_context : List (String × String)) (stack_name : String)
    (distribution_id distribution_domain_name : String) :
    Option ProtectedCloudfrontStack :=
  match env_context.lookup "env_name" with
  | none => none
  | some env_name =>
      some (buildProtectedCloudfrontStack hosted_zone domain origin_domain
        env_name stack_name distribution_id distribution_domain_name)

/-- The secret key the facade derives for one mapping `(k, v)` is `v`
when `v` is non-empty and the substring of `k` after its last dot
otherwise. -/
theorem derived_secret_key (k v : String) :
    pyOr v ((pySplitDot k).getLastD k) = if v = "" then afterLastDot k else v := by
  unfold pyOr
  by_cases hv : v = ""
  · rw [if_pos hv, if_pos hv, pySplitDot_getLastD]
  · rw [if_neg hv, if_neg hv]

/-- C1: every data entry's `secretKey` equals the mapping's target value
when that value is non-empty (truthy) and otherwise the substring of the
source key after its last dot; in particular the mappings
`{"K.S": "", "K2": "T2"}` derive the keys `{"K.S": "S", "K2": "T2"}`. -/
theorem externalSecret_data_secret_key_spec :
    (∀ (store_name : String) (s : ExternalSecretSource),
      (mkExternalSecret store_name s).resource.data.map
          (fun e => e.secret_key)
        = s.secret_mappings.map
            (fun kv => if kv.2 = "" then afterLastDot kv.1 else kv.2))
    ∧ (mkExternalSecret "store"
        { source_secret := "src", k8s_secret_name := "name",
          secret_mappings := [("K.S", ""), ("K2", "T2")] }).resource.data.map
          (fun e => (e.remote_ref.property, e.secret_key))
      = [("K.S", "S"), ("K2", "T2")] := by
  constructor
  · intro store_name s
    simp only [mkExternalSecret, List.map_map]
    exact congrArg (fun f => List.map f s.secret_mappings)
      (funext fun kv => derived_secret_key kv.1 kv.2)
  · decide

/-- C4: every emitted data entry's `remoteRef` has `key` equal to the
request's `source_secret` and `property` equal to that mapping's source
key, positionally across the whole data list. -/
theorem externalSecret_remote_ref_invariant (store_name : String)
    (s : ExternalSecretSource) :
    (mkExternalSecret store_name s).resource.data.map (fun e => e.remote_ref)
      = s.secret_mappings.map
          (fun kv => { key := s.source_secret, property := kv.1 }) := by
  simp only [mkExternalSecret, List.map_map]
  rfl

/-- C5: the emitted resource's `target.name` equals the source's
`k8s_secret_name`, and the construct's read-only `k8s_secret_name`
property returns exactly that same value. -/
theorem externalSecret_target_name_eq (store_name : String)
    (s : ExternalSecretSource) :
    (mkExternalSecret store_name s).resource.target.name = s.k8s_secret_name
    ∧ (mkExternalSecret store_name s).k8s_secret_name = s.k8s_secret_name
    ∧ (mkExternalSecret store_name s).k8s_secret_name
        = (mkExternalSecret store_name s).resource.target.name :=
  ⟨rfl, rfl, rfl⟩

/-- C6: `refreshInterval` of the emitted resource is `"1h"` when the
`ExternalSecretSource` is built without a `refresh_interval`, and the
supplied string unmodified otherwise. -/
theorem externalSecret_refresh_interval_default_and_passthrough :
    (∀ (src name : String) (m : List (String × String)),
      ({ source_secret := src, k8s_secret_name := name,
         secret_mappings := m } : ExternalSecretSource).refresh_interval = "1h")
    ∧ (∀ (store_name : String) (s : ExternalSecretSource),
      (mkExternalSecret store_name s).resource.refresh_interval
        = s.refresh_interval) :=
  ⟨fun _ _ _ => rfl, fun _ _ => rfl⟩

/-- C9: a mapping with a falsy target and a dot-free source key `k`
produces a data entry whose `secretKey` is `k` itself. -/
theorem externalSecret_undotted_key_fallback (store_name : String)
    (s : ExternalSecretSource) (k : String)
    (hk : ('.' : Char) ∉ k.data) (hmem : (k, "") ∈ s.secret_mappings) :
    ExternalSecretV1Beta1SpecData.mk ⟨s.source_secret, k⟩ k
      ∈ (mkExternalSecret store_name s).resource.data := by
  have he : pyOr "" ((pySplitDot k).getLastD k) = k := by
    rw [pyOr, if_pos rfl, pySplitDot_getLastD, afterLastDot_eq_self k hk]
  have h2 : ExternalSecretV1Beta1SpecData.mk ⟨s.source_secret, k⟩
      (pyOr "" ((pySplitDot k).getLastD k))
      ∈ (mkExternalSecret store_name s).resource.data :=
    List.mem_map_of_mem
      (fun kv : String × String =>
        ExternalSecretV1Beta1SpecData.mk ⟨s.source_secret, kv.1⟩
          (pyOr kv.2 ((pySplitDot kv.1).getLastD kv.1))) hmem
  rw [he] at h2
  exact h2

/-- Witness for C9 at the concrete mapping `("KEY", "")`. -/
theorem externalSecret_undotted_key_fallback_witness :
    ExternalSecretV1Beta1SpecData.mk ⟨"src", "KEY"⟩ "KEY"
      ∈ (mkExternalSecret "store"
          { source_secret := "src", k8s_secret_name := "n",
            secret_mappings := [("KEY", "")] }).resource.data :=
  externalSecret_undotted_key_fallback "store"
    { source_secret := "src", k8s_secret_name := "n",
      secret_mappings := [("KEY", "")] }
    "KEY" (by decide) (by decide)

/-- C2: the string `env_name ++ "-" ++ stack_name` (with `env_name` read
from `env_context`) is the single secret-header value: it equals
`secretHeaderValue()`, the `SecretHeaderArn` output value, and the value
under `X-Secret-CF-ALB-Header` both in the origin's custom headers and
in the dict returned by `secretHeader()`. -/
theorem protectedCloudfront_secret_header_single_value
    (hosted_zone domain origin_domain : String)
    (env_context : List (String × String))
    (stack_name distribution_id distribution_domain_name : String) :
    (mkProtectedCloudfrontStack hosted_zone domain origin_domain env_context
        stack_name distribution_id distribution_domain_name).map (fun s =>
      (s.secret_header, s.secretHeaderValue,
       s.outputs.lookup "SecretHeaderArn",
       s.cdn.default_behavior.origin.custom_headers.lookup SECRET_HEADER_NAME,
       s.secretHeader.lookup SECRET_HEADER_NAME))
    = (env_context.lookup "env_name").map (fun env_name =>
        (env_name ++ "-" ++ stack_name, env_name ++ "-" ++ stack_name,
         some (env_name ++ "-" ++ stack_name),
         some (env_name ++ "-" ++ stack_name),
         some (env_name ++ "-" ++ stack_name))) := by
  unfold mkProtectedCloudfrontStack
  cases env_context.lookup "env_name" with
  | none => rfl
  | some env_name => rfl

/-- C3: the CDN's default behavior uses `CACHING_DISABLED`, the added
`/assets/*` behavior uses `CACHING_OPTIMIZED`, and the two policies are
distinct, so they are never swapped. -/
theorem protectedCloudfront_cache_policies_not_swapped
    (hosted_zone domain origin_domain env_name stack_name di dd : String) :
    (buildProtectedCloudfrontStack hosted_zone domain origin_domain env_name
        stack_name di dd).cdn.default_behavior.cache_policy
      = CachePolicy.CACHING_DISABLED
    ∧ (buildProtectedCloudfrontStack hosted_zone domain origin_domain env_name
        stack_name di dd).cdn.additional_behaviors.map
          (fun pb => (pb.1, pb.2.cache_policy))
      = [("/assets/*", CachePolicy.CACHING_OPTIMIZED)]
    ∧ CachePolicy.CACHING_DISABLED ≠ CachePolicy.CACHING_OPTIMIZED :=
  ⟨rfl, rfl, by decide⟩

/-- C7: the CDN's geo-restriction is an allowlist containing exactly the
three country codes `GB`, `JE` and `GG`. -/
theorem protectedCloudfront_geo_restriction_exact
    (hosted_zone domain origin_domain env_name stack_name di dd : String) :
    (buildProtectedCloudfrontStack hosted_zone domain origin_domain env_name
        stack_name di dd).cdn.geo_restriction.restriction_type = "allowlist"
    ∧ (buildProtectedCloudfrontStack hosted_zone domain origin_domain env_name
        stack_name di dd).cdn.geo_restriction.locations = ["GB", "JE", "GG"] :=
  ⟨rfl, rfl⟩

/-- C8: the Route53 A-record's name is the first dot-separated label of
the `domain` argument, in the supplied hosted zone, aliased to the CDN
distribution; for `domain = "app.example.com"` the record name is
`"app"`. -/
theorem protectedCloudfront_dns_record_first_label
    (hosted_zone domain origin_domain env_name stack_name di dd : String) :
    (buildProtectedCloudfrontStack hosted_zone domain origin_domain env_name
        stack_name di dd).dns_record.record_name = firstLabel domain
    ∧ (buildProtectedCloudfrontStack hosted_zone domain origin_domain env_name
        stack_name di dd).dns_record.zone = hosted_zone
    ∧ (buildProtectedCloudfrontStack hosted_zone domain origin_domain env_name
        stack_name di dd).dns_record.target
      = (buildProtectedCloudfrontStack hosted_zone domain origin_domain env_name
        stack_name di dd).cdn
    ∧ (buildProtectedCloudfrontStack hosted_zone "app.example.com" origin_domain
        env_name stack_name di dd).dns_record.record_name = "app" := by
  refine ⟨pySplitDot_headD domain "", rfl, rfl, ?_⟩
  exact pySplitDot_headD "app.example.com" ""

/-- C10: the three stack outputs are named `CloudfrontDistributionId`,
`CloudfrontDistributionDomain` and `SecretHeaderArn`, and the value
under `SecretHeaderArn` is the plain secret-header string. -/
theorem protectedCloudfront_output_names
    (hosted_zone domain origin_domain env_name stack_name di dd : String) :
    (buildProtectedCloudfrontStack hosted_zone domain origin_domain env_name
        stack_name di dd).outputs
      = [("CloudfrontDistributionId", di),
         ("CloudfrontDistributionDomain", dd),
         ("SecretHeaderArn",
          (buildProtectedCloudfrontStack hosted_zone domain origin_domain
            env_name stack_name di dd).secret_header)]
    ∧ (buildProtectedCloudfrontStack hosted_zone domain origin_domain env_name
        stack_name di dd).outputs.lookup "SecretHeaderArn"
      = some ((buildProtectedCloudfrontStack hosted_zone domain origin_domain
          env_name stack_name di dd).secret_header) :=
  ⟨rfl, rfl⟩

end CdkConstructs
